import Mathlib

/-!
A shallow embedding of the in-memory filesystem test double `TestFs`
from `cpufreqd/src/fs.rs`, together with theorems checking the
natural-language specification against it.

Modelling conventions:
* A Rust `Path` is its component list (`Path::components`), so the
  absolute path `/a/b` is `["/", "a", "b"]`: the leading root component
  is part of the list, exactly as `Path::iter`/`Path::components`
  enumerate it.  `Path::starts_with` is component-wise prefix and
  `Path` equality is component-wise equality, which the list model
  reproduces.
* `HashMap<Arc<Path>, String>` is an association list with unique keys;
  `insert` replaces the binding of an existing key and otherwise adds
  one.  Iteration/`HashSet` order is immaterial to the properties
  proved (the listing is deduplicated and treated as a set).
* Rust `String` content is kept as its UTF-8 byte list, so
  `String::from_utf8` is a validity check that, when it succeeds,
  returns the same bytes.  `validUtf8` implements the standard UTF-8
  validation (as Rust's `std` does: no overlongs, no surrogates, max
  U+10FFFF).
* `io::Result` is `Except ErrorKind`; `ErrorKind::Other` is the variant
  produced for the content-decode failure in `write_to`.
* `write_to` takes `&mut self` in Rust; it is embedded as a state
  passing function returning the result together with the (possibly
  updated) store, so that "the store after a failing call" is a
  meaningful object.
-/

namespace CpufreqFs

/-- A path, as its list of components (root component included). -/
abbrev Path := List String

/-- File content, as the UTF-8 byte list of the stored Rust `String`. -/
abbrev Content := List Nat

/-- The `io::ErrorKind` values this code produces.  `other` is
`ErrorKind::Other`, used for the UTF-8 decode failure in `write_to`. -/
inductive ErrorKind where
  | notFound
  | permissionDenied
  | isADirectory
  | notADirectory
  | other
deriving DecidableEq

deriving instance DecidableEq for Except

/-- `OpenOptions`: four independent flags, all `false` by default. -/
structure OpenOptions where
  read : Bool
  write : Bool
  append : Bool
  create : Bool
deriving DecidableEq

/-- `OpenOptions::default()`. -/
def OpenOptions.mkDefault : OpenOptions := ⟨false, false, false, false⟩

/-- The `mk_builder!`-generated builder `read` (named `setRead` here
because Lean reserves `OpenOptions.read` for the field projection):
returns a copy with the `read` flag set to `val`. -/
def OpenOptions.setRead (o : OpenOptions) (val : Bool) : OpenOptions :=
  ⟨val, o.write, o.append, o.create⟩

/-- The builder `write`: copy with the `write` flag set to `val`. -/
def OpenOptions.setWrite (o : OpenOptions) (val : Bool) : OpenOptions :=
  ⟨o.read, val, o.append, o.create⟩

/-- The builder `append`: copy with the `append` flag set to `val`. -/
def OpenOptions.setAppend (o : OpenOptions) (val : Bool) : OpenOptions :=
  ⟨o.read, o.write, val, o.create⟩

/-- The builder `create`: copy with the `create` flag set to `val`. -/
def OpenOptions.setCreate (o : OpenOptions) (val : Bool) : OpenOptions :=
  ⟨o.read, o.write, o.append, val⟩

/-- `TestFile`: a handle binding a path to the options it was opened
with. -/
structure TestFile where
  path : Path
  options : OpenOptions
deriving DecidableEq

/-- `TestDirEnt`: a directory-listing entry. -/
inductive TestDirEnt where
  | file (p : Path)
  | dir (p : Path)
deriving DecidableEq

/-- `Fs::is_dir` for `TestFs` (`matches!(dirent, Dir(_))`). -/
def TestDirEnt.is_dir : TestDirEnt → Bool
  | .dir _ => true
  | .file _ => false

/-- `Fs::is_file` default method: negation of `is_dir`. -/
def TestDirEnt.is_file (d : TestDirEnt) : Bool := !d.is_dir

/-- `TestFs`: the backing store, a map from absolute path to content
(`HashMap<Arc<Path>, String>`), modelled as an association list with
unique keys. -/
structure TestFs where
  store : List (Path × Content)
deriving DecidableEq

/-- `Path::starts_with`: component-wise prefix test.
`pathStartsWith p base` is `p.starts_with(base)`, i.e. `base` is a
component prefix of `p`. -/
def pathStartsWith : Path → Path → Bool
  | _, [] => true
  | [], _ :: _ => false
  | a :: as, b :: bs => if b = a then pathStartsWith as bs else false

/-- `HashMap::get`. -/
def storeGet : List (Path × Content) → Path → Option Content
  | [], _ => none
  | (q, d) :: rest, p => if q = p then some d else storeGet rest p

/-- `HashMap::contains_key`. -/
def containsKey : List (Path × Content) → Path → Bool
  | [], _ => false
  | (q, _) :: rest, p => if q = p then true else containsKey rest p

/-- `HashMap::insert`: replaces the binding of an existing key,
otherwise adds the new binding. -/
def storeInsert : List (Path × Content) → Path → Content → List (Path × Content)
  | [], p, c => [(p, c)]
  | (q, d) :: rest, p, c =>
      if q = p then (p, c) :: rest else (q, d) :: storeInsert rest p c

/-- The key set of the store (`HashMap` keys). -/
def storeKeys (s : List (Path × Content)) : List Path := s.map Prod.fst

/-- A UTF-8 continuation byte: `0x80 ≤ b < 0xC0`. -/
def contByte (b : Nat) : Bool := decide (0x80 ≤ b) && decide (b < 0xC0)

/-- First continuation byte range for a 3-byte sequence with lead `b`
(tightened for `0xE0` against overlongs and for `0xED` against
surrogates). -/
def cont3First (b c : Nat) : Bool :=
  if b = 0xE0 then decide (0xA0 ≤ c) && decide (c < 0xC0)
  else if b = 0xED then decide (0x80 ≤ c) && decide (c < 0xA0)
  else contByte c

/-- First continuation byte range for a 4-byte sequence with lead `b`
(tightened for `0xF0` against overlongs and for `0xF4` against values
above U+10FFFF). -/
def cont4First (b c : Nat) : Bool :=
  if b = 0xF0 then decide (0x90 ≤ c) && decide (c < 0xC0)
  else if b = 0xF4 then decide (0x80 ≤ c) && decide (c < 0x90)
  else contByte c

/-- `String::from_utf8` succeeds exactly on valid UTF-8: this is the
standard validation automaton over the byte list. -/
def validUtf8 : List Nat → Bool
  | [] => true
  | b :: rest =>
    if b < 0x80 then validUtf8 rest
    else if b < 0xC2 then false
    else if b < 0xE0 then
      match rest with
      | c1 :: rest2 => contByte c1 && validUtf8 rest2
      | [] => false
    else if b < 0xF0 then
      match rest with
      | c1 :: c2 :: rest2 => cont3First b c1 && contByte c2 && validUtf8 rest2
      | _ => false
    else if b < 0xF5 then
      match rest with
      | c1 :: c2 :: c3 :: rest2 =>
          cont4First b c1 && contByte c2 && contByte c3 && validUtf8 rest2
      | _ => false
    else false

/-- `TestFs::_exists`: literal key membership, never errors. -/
def TestFs._exists (fs : TestFs) (path : Path) : Except ErrorKind Bool :=
  .ok (containsKey fs.store path)

/-- `Fs::exists` for `TestFs` (the `&str` argument is already a parsed
component list in this model, so the wrapper is `_exists` itself). -/
def TestFs.pathExists (fs : TestFs) (path : Path) : Except ErrorKind Bool :=
  fs._exists path

/-- `TestFs::_dir`: fails `NotADirectory` when the queried path is a
stored key; otherwise lists, deduplicated, a `file` entry for every key
the path strictly prefixes with exactly one extra component, and a
`dir` entry truncated to one component past the path for every key it
strictly prefixes by more than one component. -/
def TestFs._dir (fs : TestFs) (path : Path) : Except ErrorKind (List TestDirEnt) :=
  match fs._exists path with
  | .error e => .error e
  | .ok true => .error .notADirectory
  | .ok false =>
      .ok ((((storeKeys fs.store).filter
          (fun p => decide (p ≠ path) && pathStartsWith p path)).map
          (fun p =>
            if path.length + 1 < p.length then
              TestDirEnt.dir (p.take (path.length + 1))
            else TestDirEnt.file p)).dedup)

/-- `Fs::dir` for `TestFs`: delegates to `_dir`. -/
def TestFs.dir (fs : TestFs) (path : Path) : Except ErrorKind (List TestDirEnt) :=
  fs._dir path

/-- `TestFs::_is_dir`: returns `false` for a path that is not a stored
key; for a stored key it calls `_dir`, maps the `NotADirectory` failure
to `false`, propagates any other failure, and maps success to `true`. -/
def TestFs._is_dir (fs : TestFs) (path : Path) : Except ErrorKind Bool :=
  match fs._exists path with
  | .error e => .error e
  | .ok false => .ok false
  | .ok true =>
      match fs._dir path with
      | .error .notADirectory => .ok false
      | .error e => .error e
      | .ok _ => .ok true

/-- `Fs::open` for `TestFs` (named `openFile` because `open` is a Lean
keyword): succeeds iff the path exists or `create` is set, recording
path and options in the handle; otherwise fails `NotFound`. -/
def TestFs.openFile (fs : TestFs) (options : OpenOptions) (path : Path) :
    Except ErrorKind TestFile :=
  match fs._exists path with
  | .error e => .error e
  | .ok b =>
      if b || options.create then .ok ⟨path, options⟩
      else .error .notFound

/-- `Fs::write_to` for `TestFs`.  Takes `&mut self` in Rust, so the
embedding returns the result paired with the store after the call:
no-write-flag fails `PermissionDenied`; invalid UTF-8 fails with the
decode error (`Other`); a directory path fails `IsADirectory`; a fresh
path is inserted when `create` is set and fails `NotFound` otherwise;
an existing path is overwritten unconditionally. -/
def TestFs.write_to (fs : TestFs) (f : TestFile) (content : Content) :
    Except ErrorKind Unit × TestFs :=
  if !f.options.write then (.error .permissionDenied, fs)
  else if !validUtf8 content then (.error .other, fs)
  else
    match fs._is_dir f.path with
    | .error e => (.error e, fs)
    | .ok true => (.error .isADirectory, fs)
    | .ok false =>
        if !containsKey fs.store f.path && f.options.create then
          (.ok (), ⟨storeInsert fs.store f.path content⟩)
        else if !containsKey fs.store f.path then (.error .notFound, fs)
        else (.ok (), ⟨storeInsert fs.store f.path content⟩)

/-- `Fs::read_to_string` for `TestFs`: a directory path fails
`IsADirectory`; a handle without the read flag fails
`PermissionDenied`; an absent path fails `NotFound`; otherwise the
stored content is returned. -/
def TestFs.read_to_string (fs : TestFs) (f : TestFile) :
    Except ErrorKind Content :=
  match fs._is_dir f.path with
  | .error e => .error e
  | .ok true => .error .isADirectory
  | .ok false =>
      if !f.options.read then .error .permissionDenied
      else
        match storeGet fs.store f.path with
        | none => .error .notFound
        | some c => .ok c

/-- The UTF-8 bytes of `"no content"`, the placeholder content
`TestFs::new` seeds every path with. -/
def noContentBytes : Content := [110, 111, 32, 99, 111, 110, 116, 101, 110, 116]

/-- `TestFs::new`: builds the store by inserting every seed path with
placeholder content. -/
def TestFs.new (l : List Path) : TestFs :=
  ⟨l.foldl (fun s p => storeInsert s p noContentBytes) []⟩

/-- The spec's path-level directory classification (spec invariant 2,
stated from the spec's words for comparison with the code's `_is_dir`):
a path is classified as a directory iff at least one other stored path
has it as a strict prefix. -/
def specIsDir (fs : TestFs) (p : Path) : Bool :=
  (storeKeys fs.store).any (fun k => decide (k ≠ p) && pathStartsWith k p)

/-- The spec's description of one `dir` listing entry (stated from the
claim's words for comparison with `_dir`): `e` is an entry of the
listing of `P` over key set `K` iff some key `k` strictly extends `P`
and either `k` has exactly one extra component and `e` is the `file`
entry at `k`, or `k` has more than one extra component and `e` is the
`dir` entry truncated to one component past `P`. -/
def dirSpecEntry (P : Path) (K : List Path) (e : TestDirEnt) : Prop :=
  ∃ k, k ∈ K ∧ pathStartsWith k P = true ∧ k ≠ P ∧
    ((k.length = P.length + 1 ∧ e = .file k) ∨
     (P.length + 1 < k.length ∧ e = .dir (k.take (P.length + 1))))

/-- The spec's file/directory collision freedom (invariant 3, stated
from the claim's words): no key is a strict prefix of another key. -/
def noCollision (K : List Path) : Bool :=
  K.all (fun p => K.all (fun q => !(decide (p ≠ q) && pathStartsWith q p)))

/-- Recognizer for the `IsADirectory` failure of an operation result
(used to state reachability of the `IsADirectory` branches without a
negated equality). -/
def isADirErr {α : Type} : Except ErrorKind α → Bool
  | .error .isADirectory => true
  | _ => false

/-- Concrete path `/a`. -/
def pA : Path := ["/", "a"]

/-- Concrete path `/a/b`. -/
def pAB : Path := ["/", "a", "b"]

/-- Concrete path `/a/b/c`. -/
def pABC : Path := ["/", "a", "b", "c"]

/-- Concrete path `/a/d`. -/
def pAD : Path := ["/", "a", "d"]

/-! ## Helper lemmas -/

/-- `_exists` never errors: it is key membership. -/
theorem exists_eq_containsKey (fs : TestFs) (p : Path) :
    fs._exists p = .ok (containsKey fs.store p) := rfl

/-- `_dir` fails `NotADirectory` on any stored key. -/
theorem dir_error_of_containsKey (fs : TestFs) (p : Path)
    (h : containsKey fs.store p = true) :
    fs._dir p = .error .notADirectory := by
  simp [TestFs._dir, TestFs._exists, h]

/-- `_dir` on a non-key returns the deduplicated derived listing. -/
theorem dir_ok_of_not_containsKey (fs : TestFs) (p : Path)
    (h : containsKey fs.store p = false) :
    fs._dir p = .ok ((((storeKeys fs.store).filter
        (fun k => decide (k ≠ p) && pathStartsWith k p)).map
        (fun k =>
          if p.length + 1 < k.length then TestDirEnt.dir (k.take (p.length + 1))
          else TestDirEnt.file k)).dedup) := by
  simp [TestFs._dir, TestFs._exists, h]

/-- The key fact behind several claims: `_is_dir` returns `Ok(false)`
on every store and every path.  A non-key path short-circuits to
`false`, and for a stored key the inner `_dir` call necessarily fails
`NotADirectory`, which `_is_dir` maps back to `false`. -/
theorem is_dir_ok_false (fs : TestFs) (p : Path) :
    fs._is_dir p = .ok false := by
  cases h : containsKey fs.store p with
  | false => simp [TestFs._is_dir, TestFs._exists, h]
  | true =>
      simp [TestFs._is_dir, TestFs._exists, h,
        dir_error_of_containsKey fs p h]

/-- Inserting at an already-present key leaves the key list unchanged. -/
theorem storeKeys_insert_of_containsKey (s : List (Path × Content)) (p : Path)
    (c : Content) (h : containsKey s p = true) :
    storeKeys (storeInsert s p c) = storeKeys s := by
  induction s with
  | nil => simp [containsKey] at h
  | cons hd tl ih =>
      obtain ⟨q, d⟩ := hd
      by_cases hq : q = p
      · subst hq; simp [storeInsert, storeKeys]
      · simp only [containsKey, if_neg hq] at h
        have ih' := ih h
        simp only [storeKeys] at ih'
        simp [storeInsert, storeKeys, hq, ih']

/-- Lookup after insert at the same key returns the inserted content. -/
theorem storeGet_insert_self (s : List (Path × Content)) (p : Path) (c : Content) :
    storeGet (storeInsert s p c) p = some c := by
  induction s with
  | nil => simp [storeInsert, storeGet]
  | cons hd tl ih =>
      obtain ⟨q, d⟩ := hd
      by_cases hq : q = p
      · subst hq; simp [storeInsert, storeGet]
      · simp [storeInsert, storeGet, hq, ih]

/-- Key membership in terms of the key list. -/
theorem containsKey_iff (s : List (Path × Content)) (p : Path) :
    containsKey s p = true ↔ p ∈ storeKeys s := by
  induction s with
  | nil => simp [containsKey, storeKeys]
  | cons hd tl ih =>
      obtain ⟨q, d⟩ := hd
      by_cases hq : q = p
      · subst hq; simp [containsKey, storeKeys]
      · have hq' : p ≠ q := fun h => hq h.symm
        simp [containsKey, storeKeys, hq, hq', ih]

/-- `starts_with` implies the prefix is no longer than the path. -/
theorem pathStartsWith_length_le : ∀ (p base : Path),
    pathStartsWith p base = true → base.length ≤ p.length
  | _, [], _ => by simp
  | [], _ :: _, h => by simp [pathStartsWith] at h
  | a :: as, b :: bs, h => by
      by_cases hb : b = a
      · have h' : pathStartsWith as bs = true := by
          simpa [pathStartsWith, hb] using h
        simpa using Nat.succ_le_succ (pathStartsWith_length_le as bs h')
      · simp [pathStartsWith, hb] at h

/-- A prefix of equal length is the path itself. -/
theorem pathStartsWith_eq_of_length : ∀ (p base : Path),
    pathStartsWith p base = true → base.length = p.length → base = p
  | [], [], _, _ => rfl
  | [], _ :: _, h, _ => by simp [pathStartsWith] at h
  | _ :: _, [], _, hl => by simp at hl
  | a :: as, b :: bs, h, hl => by
      by_cases hb : b = a
      · subst hb
        have h' : pathStartsWith as bs = true := by
          simpa [pathStartsWith] using h
        have hl' : bs.length = as.length := by simpa using hl
        rw [pathStartsWith_eq_of_length as bs h' hl']
      · simp [pathStartsWith, hb] at h

/-- `write_to` on an existing key with the write flag and valid content
overwrites that key. -/
theorem write_to_existing (fs : TestFs) (f : TestFile) (c : Content)
    (h1 : f.options.write = true) (h2 : validUtf8 c = true)
    (hkey : containsKey fs.store f.path = true) :
    fs.write_to f c = (.ok (), ⟨storeInsert fs.store f.path c⟩) := by
  simp [TestFs.write_to, is_dir_ok_false, h1, h2, hkey]

/-! ## Claim theorems -/

/-- Claim C3 (code bug, code evaluated at the failing input): for the
store seeded with `/a/b` the path `/a` is classified as a directory by
the spec (strict prefix of a stored key, not itself a key), yet
`read_to_string` through a read-flagged handle for `/a` returns
`NotFound`, and through a handle without the read flag returns
`PermissionDenied` — never the `IsADirectory` the claim requires. -/
theorem C3_directory_read_eval :
    specIsDir (TestFs.new [pAB]) pA = true ∧
    containsKey (TestFs.new [pAB]).store pA = false ∧
    (TestFs.new [pAB]).read_to_string ⟨pA, ⟨true, false, false, false⟩⟩ =
      .error .notFound ∧
    (TestFs.new [pAB]).read_to_string ⟨pA, ⟨false, false, false, false⟩⟩ =
      .error .permissionDenied := by decide

/-- Claim C6 (code bug, code evaluated at the failing input): with only
`/a/b/c` stored, `exists("/a/b")` is false as the claim says, but the
path-level `_is_dir("/a/b")` is also false (the claim requires true):
the `_exists` guard in `_is_dir` returns `Ok(false)` for every non-key,
including implicit directories. -/
theorem C6_exists_is_dir_eval :
    (TestFs.new [pABC]).pathExists pAB = .ok false ∧
    specIsDir (TestFs.new [pABC]) pAB = true ∧
    (TestFs.new [pABC])._is_dir pAB = .ok false := by decide

/-- Claim C8: `read_to_string` on a handle lacking the read flag always
fails `PermissionDenied`, whatever the handle's path is (the directory
check that precedes it never fires because `_is_dir` is constantly
`Ok(false)`). -/
theorem C8_read_permission (fs : TestFs) (f : TestFile)
    (h : f.options.read = false) :
    fs.read_to_string f = .error .permissionDenied := by
  simp [TestFs.read_to_string, is_dir_ok_false, h]

/-- Witness for C8 at a concrete store and handle. -/
theorem C8_read_permission_witness :
    (TestFs.new [pA]).read_to_string ⟨pA, ⟨false, false, false, false⟩⟩ =
      .error .permissionDenied :=
  C8_read_permission (TestFs.new [pA]) ⟨pA, ⟨false, false, false, false⟩⟩ rfl

/-- Claim C9: on every store and path the internal directory test
`_is_dir` returns `Ok(false)`, and consequently no operation of the
test double ever produces the `IsADirectory` error — the `IsADirectory`
branches of `read_to_string` and `write_to` are unreachable. -/
theorem C9_is_dir_always_false (fs : TestFs) (p : Path) (f : TestFile)
    (c : Content) (opts : OpenOptions) :
    fs._is_dir p = .ok false ∧
    isADirErr (fs.write_to f c).1 = false ∧
    isADirErr (fs.read_to_string f) = false ∧
    isADirErr (fs.dir p) = false ∧
    isADirErr (fs.openFile opts p) = false ∧
    isADirErr (fs.pathExists p) = false := by
  refine ⟨is_dir_ok_false fs p, ?_, ?_, ?_, ?_, rfl⟩
  · cases h1 : f.options.write <;> cases h2 : validUtf8 c <;>
      cases h3 : containsKey fs.store f.path <;> cases h4 : f.options.create <;>
      simp [TestFs.write_to, is_dir_ok_false, isADirErr, h1, h2, h3, h4]
  · cases h1 : f.options.read <;>
      cases h2 : storeGet fs.store f.path <;>
      simp [TestFs.read_to_string, is_dir_ok_false, isADirErr, h1, h2]
  · cases h : containsKey fs.store p
    · simp [TestFs.dir, dir_ok_of_not_containsKey fs p h, isADirErr]
    · simp [TestFs.dir, dir_error_of_containsKey fs p h, isADirErr]
  · cases h : containsKey fs.store p <;>
      cases hc : opts.create <;>
      simp [TestFs.openFile, TestFs._exists, isADirErr, h, hc]

/-- Claim C10: `write_to` is atomic on failure — whenever it returns an
error, the store it hands back is exactly the store it was called
with. -/
theorem C10_write_atomic (fs : TestFs) (f : TestFile) (c : Content)
    (e : ErrorKind) (h : (fs.write_to f c).1 = .error e) :
    (fs.write_to f c).2 = fs := by
  cases h1 : f.options.write <;> cases h2 : validUtf8 c <;>
    cases h3 : containsKey fs.store f.path <;> cases h4 : f.options.create <;>
    simp [TestFs.write_to, is_dir_ok_false, h1, h2, h3, h4] at h ⊢

/-- Witness for C10: a rejected write (no write flag) leaves the store
untouched. -/
theorem C10_write_atomic_witness :
    ((TestFs.new [pA]).write_to ⟨pA, ⟨false, false, false, false⟩⟩ []).2 =
      TestFs.new [pA] :=
  C10_write_atomic (TestFs.new [pA]) ⟨pA, ⟨false, false, false, false⟩⟩ []
    .permissionDenied (by decide)

/-- Claim C1 (counterexample): the claimed check order fails in
`write_to`.  With `/a/b` stored, the handle for `/a` (a directory under
the spec's classification) without the write flag gets
`PermissionDenied`, not the `IsADirectory` the claim requires: the
permission check runs first. -/
theorem C1_counterexample :
    specIsDir (TestFs.new [pAB]) pA = true ∧
    (((TestFs.new [pAB]).write_to ⟨pA, ⟨false, false, false, false⟩⟩ []).1 =
      .error .permissionDenied) ∧
    decide (((TestFs.new [pAB]).write_to ⟨pA, ⟨false, false, false, false⟩⟩ []).1 =
      .error .isADirectory) = false := by decide

/-- Claim C1 as amended: in `write_to` the permission check comes
first, then content decoding, then directory classification, then
existence/create logic.  Concretely: a handle lacking the write flag
always gets `PermissionDenied`; a write-flagged handle with undecodable
bytes always gets the decode error, regardless of existence or the
create flag; and a write-flagged handle with decodable bytes on a fresh
path without create gets `NotFound`. -/
theorem C1_amended_write_check_order (fs : TestFs) (f : TestFile) (c : Content) :
    (f.options.write = false → (fs.write_to f c).1 = .error .permissionDenied) ∧
    (f.options.write = true → validUtf8 c = false →
      (fs.write_to f c).1 = .error .other) ∧
    (f.options.write = true → validUtf8 c = true →
      containsKey fs.store f.path = false → f.options.create = false →
      (fs.write_to f c).1 = .error .notFound) := by
  refine ⟨fun h1 => ?_, fun h1 h2 => ?_, fun h1 h2 h3 h4 => ?_⟩
  · simp [TestFs.write_to, h1]
  · simp [TestFs.write_to, h1, h2]
  · simp [TestFs.write_to, is_dir_ok_false, h1, h2, h3, h4]

/-- Witness for the amended C1 at concrete stores, handles and byte
contents (`0xFF` is not valid UTF-8; `0x68` is). -/
theorem C1_amended_witness :
    ((TestFs.new [pAB]).write_to ⟨pA, ⟨false, false, false, false⟩⟩ []).1 =
      .error .permissionDenied ∧
    ((TestFs.new []).write_to ⟨pA, ⟨false, true, false, true⟩⟩ [255]).1 =
      .error .other ∧
    ((TestFs.new []).write_to ⟨pA, ⟨false, true, false, false⟩⟩ [104]).1 =
      .error .notFound :=
  ⟨(C1_amended_write_check_order (TestFs.new [pAB])
      ⟨pA, ⟨false, false, false, false⟩⟩ []).1 rfl,
   (C1_amended_write_check_order (TestFs.new [])
      ⟨pA, ⟨false, true, false, true⟩⟩ [255]).2.1 rfl (by decide),
   (C1_amended_write_check_order (TestFs.new [])
      ⟨pA, ⟨false, true, false, false⟩⟩ [104]).2.2 rfl (by decide) (by decide) rfl⟩

/-- Claim C2 (counterexample): starting from the collision-free store
seeded with `/a` alone, `write_to` with the write and create flags on
`/a/b` succeeds and leaves a store in which `/a` is both a stored file
and a strict prefix of the stored `/a/b`: the invariant is not
preserved. -/
theorem C2_counterexample :
    noCollision (storeKeys (TestFs.new [pA]).store) = true ∧
    (TestFs.new [pA]).write_to ⟨pAB, ⟨false, true, false, true⟩⟩ [104] =
      (.ok (), ⟨[(pA, noContentBytes), (pAB, [104])]⟩) ∧
    noCollision (storeKeys
      ((TestFs.new [pA]).write_to ⟨pAB, ⟨false, true, false, true⟩⟩ [104]).2.store) =
      false := by decide

/-- Claim C2 as amended: the collision-freedom invariant is preserved
by every operation that does not insert a fresh key; in particular a
successful `write_to` whose path is already stored only overwrites that
key, leaving the key set — and hence the invariant — intact.  (The
read-only operations do not touch the store at all; only a creating
`write_to` on a fresh path can break the invariant.) -/
theorem C2_amended_preservation (fs : TestFs) (f : TestFile) (c : Content)
    (fs' : TestFs) (hinv : noCollision (storeKeys fs.store) = true)
    (hkey : containsKey fs.store f.path = true)
    (hw : fs.write_to f c = (.ok (), fs')) :
    noCollision (storeKeys fs'.store) = true := by
  cases h1 : f.options.write with
  | false => simp [TestFs.write_to, h1] at hw
  | true =>
      cases h2 : validUtf8 c with
      | false => simp [TestFs.write_to, h1, h2] at hw
      | true =>
          rw [write_to_existing fs f c h1 h2 hkey] at hw
          have h5 : (⟨storeInsert fs.store f.path c⟩ : TestFs) = fs' :=
            congrArg Prod.snd hw
          subst h5
          show noCollision (storeKeys (storeInsert fs.store f.path c)) = true
          rw [storeKeys_insert_of_containsKey fs.store f.path c hkey]
          exact hinv

/-- Witness for the amended C2: overwriting the stored `/a` keeps the
store collision-free. -/
theorem C2_amended_witness :
    noCollision (storeKeys (⟨[(pA, [104])]⟩ : TestFs).store) = true :=
  C2_amended_preservation (TestFs.new [pA]) ⟨pA, ⟨false, true, false, false⟩⟩
    [104] ⟨[(pA, [104])]⟩ (by decide) (by decide) (by decide)

/-- Claim C5 (counterexample): a handle with the create flag but
without the write flag on a fresh path makes `write_to` fail
`PermissionDenied` — it neither succeeds (refuting the create half of
the claim) nor returns the `NotFound` the no-create half would force on
a handle lacking only `create`. -/
theorem C5_counterexample :
    containsKey (TestFs.new []).store pA = false ∧
    (((TestFs.new []).write_to ⟨pA, ⟨false, false, false, true⟩⟩ []).1 =
      .error .permissionDenied) ∧
    decide (((TestFs.new []).write_to ⟨pA, ⟨false, false, false, true⟩⟩ []).1 =
      .ok ()) = false := by decide

/-- Claim C5 as amended (round-trip law restricted to write-flagged
handles and decodable content, which the counterexample forces): for a
path not in the store and UTF-8-valid bytes, a write-flagged handle
without create fails `NotFound`; with create it succeeds, and a
subsequent `read_to_string` through any read-flagged handle for that
path returns exactly the written content. -/
theorem C5_amended_round_trip (fs : TestFs) (P : Path) (opts : OpenOptions)
    (c : Content) (hP : containsKey fs.store P = false)
    (hw : opts.write = true) (hc : validUtf8 c = true) :
    (opts.create = false → (fs.write_to ⟨P, opts⟩ c).1 = .error .notFound) ∧
    (opts.create = true →
      (fs.write_to ⟨P, opts⟩ c).1 = .ok () ∧
      ∀ opts2 : OpenOptions, opts2.read = true →
        (fs.write_to ⟨P, opts⟩ c).2.read_to_string ⟨P, opts2⟩ = .ok c) := by
  constructor
  · intro hcr
    simp [TestFs.write_to, is_dir_ok_false, hP, hw, hc, hcr]
  · intro hcr
    have hpair : fs.write_to ⟨P, opts⟩ c = (.ok (), ⟨storeInsert fs.store P c⟩) := by
      simp [TestFs.write_to, is_dir_ok_false, hP, hw, hc, hcr]
    refine ⟨by rw [hpair], fun opts2 hr => ?_⟩
    rw [hpair]
    simp [TestFs.read_to_string, is_dir_ok_false, hr, storeGet_insert_self]

/-- Witness for the amended C5: writing the byte `0x68` to the fresh
path `/a` fails `NotFound` without create, succeeds with create, and
reads back as exactly `[0x68]`. -/
theorem C5_amended_witness :
    ((TestFs.new []).write_to ⟨pA, ⟨false, true, false, false⟩⟩ [104]).1 =
      .error .notFound ∧
    ((TestFs.new []).write_to ⟨pA, ⟨false, true, false, true⟩⟩ [104]).1 = .ok () ∧
    ((TestFs.new []).write_to ⟨pA, ⟨false, true, false, true⟩⟩ [104]).2.read_to_string
      ⟨pA, ⟨true, false, false, false⟩⟩ = .ok [104] :=
  ⟨(C5_amended_round_trip (TestFs.new []) pA ⟨false, true, false, false⟩ [104]
      (by decide) rfl (by decide)).1 rfl,
   ((C5_amended_round_trip (TestFs.new []) pA ⟨false, true, false, true⟩ [104]
      (by decide) rfl (by decide)).2 rfl).1,
   ((C5_amended_round_trip (TestFs.new []) pA ⟨false, true, false, true⟩ [104]
      (by decide) rfl (by decide)).2 rfl).2 ⟨true, false, false, false⟩ rfl⟩

/-- Claim C7: `open` succeeds with a handle binding the given path to
the given options exactly when the path is a stored key or the create
flag is set, and fails `NotFound` otherwise; and it depends only on the
key set — two stores with the same keys (whatever their contents) give
identical `open` results, so `open` neither reads nor modifies stored
content (it is a pure function that does not return a store at all). -/
theorem C7_open_spec (fs : TestFs) (opts : OpenOptions) (p : Path) :
    (fs.openFile opts p =
      if containsKey fs.store p || opts.create then .ok ⟨p, opts⟩
      else .error .notFound) ∧
    (∀ fs2 : TestFs, storeKeys fs2.store = storeKeys fs.store →
      fs2.openFile opts p = fs.openFile opts p) := by
  constructor
  · simp [TestFs.openFile, TestFs._exists]
  · intro fs2 hk
    have hck : containsKey fs2.store p = containsKey fs.store p := by
      rw [Bool.eq_iff_iff, containsKey_iff, containsKey_iff, hk]
    simp [TestFs.openFile, TestFs._exists, hck]

/-- Witness for C7: opening the stored `/a` read-only succeeds on the
seeded store, and a store with the same single key but different
content gives the same result. -/
theorem C7_open_spec_witness :
    ((TestFs.new [pA]).openFile ⟨true, false, false, false⟩ pA =
      if containsKey (TestFs.new [pA]).store pA ||
          (⟨true, false, false, false⟩ : OpenOptions).create
      then .ok ⟨pA, ⟨true, false, false, false⟩⟩ else .error .notFound) ∧
    (⟨[(pA, [104])]⟩ : TestFs).openFile ⟨true, false, false, false⟩ pA =
      (TestFs.new [pA]).openFile ⟨true, false, false, false⟩ pA :=
  ⟨(C7_open_spec (TestFs.new [pA]) ⟨true, false, false, false⟩ pA).1,
   (C7_open_spec (TestFs.new [pA]) ⟨true, false, false, false⟩ pA).2
     ⟨[(pA, [104])]⟩ (by decide)⟩

/-- Claim C4: `dir(P)` fails `NotADirectory` exactly when `P` is a
stored key; otherwise it returns a duplicate-free listing whose entries
are precisely those the spec derives — a `File` entry at the full key
for every key extending `P` by exactly one component, and a `Dir` entry
truncated to one component past `P` for the keys extending it by more;
in particular, with `/a/b/c` and `/a/d` stored, `dir("/a")` is exactly
the set with `Dir("/a/b")` and `File("/a/d")`. -/
theorem C4_dir_listing :
    (∀ (fs : TestFs) (P : Path),
      (containsKey fs.store P = true → fs.dir P = .error .notADirectory) ∧
      (containsKey fs.store P = false →
        ∃ L, fs.dir P = .ok L ∧ L.Nodup ∧
          ∀ e, e ∈ L ↔ dirSpecEntry P (storeKeys fs.store) e)) ∧
    (TestFs.new [pABC, pAD]).dir pA =
      .ok [TestDirEnt.dir pAB, TestDirEnt.file pAD] := by
  constructor
  · intro fs P
    constructor
    · intro h
      exact dir_error_of_containsKey fs P h
    · intro h
      refine ⟨_, dir_ok_of_not_containsKey fs P h, List.nodup_dedup _, ?_⟩
      intro e
      rw [List.mem_dedup, List.mem_map]
      constructor
      · rintro ⟨k, hk, rfl⟩
        rw [List.mem_filter] at hk
        obtain ⟨hkK, hcond⟩ := hk
        rw [Bool.and_eq_true, decide_eq_true_eq] at hcond
        obtain ⟨hne, hpsw⟩ := hcond
        refine ⟨k, hkK, hpsw, hne, ?_⟩
        by_cases hlt : P.length + 1 < k.length
        · exact Or.inr ⟨hlt, by simp [hlt]⟩
        · have hle := pathStartsWith_length_le k P hpsw
          have hne' : P.length ≠ k.length := fun hl =>
            hne (pathStartsWith_eq_of_length k P hpsw hl).symm
          have hlb : P.length + 1 ≤ k.length := Nat.lt_of_le_of_ne hle hne'
          have hub : k.length ≤ P.length + 1 := Nat.not_lt.mp hlt
          exact Or.inl ⟨Nat.le_antisymm hub hlb, by simp [hlt]⟩
      · rintro ⟨k, hkK, hpsw, hne, hcase⟩
        refine ⟨k, ?_, ?_⟩
        · rw [List.mem_filter]
          refine ⟨hkK, ?_⟩
          rw [Bool.and_eq_true, decide_eq_true_eq]
          exact ⟨hne, hpsw⟩
        · rcases hcase with ⟨hlen, he⟩ | ⟨hlt, he⟩
          · have hnl : ¬ P.length + 1 < k.length := by omega
            simp [hnl, he]
          · simp [hlt, he]
  · decide

/-- Witness for C4: `dir` on the stored file `/a/b/c` fails
`NotADirectory`, and the listing of the non-key `/a` over the store
with `/a/b/c` and `/a/d` satisfies the derived-entry specification. -/
theorem C4_dir_listing_witness :
    (TestFs.new [pABC]).dir pABC = .error .notADirectory ∧
    ∃ L, (TestFs.new [pABC, pAD]).dir pA = .ok L ∧ L.Nodup ∧
      ∀ e, e ∈ L ↔ dirSpecEntry pA (storeKeys (TestFs.new [pABC, pAD]).store) e :=
  ⟨(C4_dir_listing.1 (TestFs.new [pABC]) pABC).1 (by decide),
   (C4_dir_listing.1 (TestFs.new [pABC, pAD]) pA).2 (by decide)⟩

end CpufreqFs
